import Mathlib

/-!
Shallow embedding of `src/main.py` (`AdvancedPDFExtractor`, "Advanced PDF Text
and Table Extraction Tool").

The program orchestrates external PDF libraries.  The behaviour of each
library call (the pages of text every text-extraction backend would produce,
the image regions pdfplumber reports, the tables camelot/tabula detect, and
whether a given call raises an exception) is supplied by an `Env` value; the
repository's own control flow and data manipulation are transcribed from the
source.  Machine text is modelled as Lean `String` restricted to the
characters that occur; whitespace classes are modelled over the ASCII
whitespace characters.
-/

namespace PDFExtractor

/-- ASCII whitespace, the model of Python's whitespace class for `str.strip`
and the regex class in the heading patterns. -/
def isPySpace (c : Char) : Bool :=
  c == ' ' || c == '\t' || c == '\n' || c == '\x0b' || c == '\x0c' || c == '\r'

/-- Model of Python `str.strip()`: drop whitespace from both ends. -/
def pyStrip (s : String) : String :=
  String.mk (((s.data.dropWhile isPySpace).reverse.dropWhile isPySpace).reverse)

/-- A page text is "blank" for the selector when it strips to the empty
string (Python truthiness of `text.strip()`). -/
def nonblank (s : String) : Bool := !(pyStrip s).isEmpty

/-! ### A small matcher engine for the four heading regexes

A `Matcher` maps an input character list to the list of possible remainders
after consuming a match of the pattern; `re.match` success means at least one
remainder exists.  Repetition is fuel-bounded by the input length, which is
exact here because every repeated sub-pattern in the source regexes is a
single character class, consuming at least one character per iteration. -/

abbrev Matcher := List Char → List (List Char)

/-- Match one character satisfying `p` (a regex character class). -/
def mchar (p : Char → Bool) : Matcher := fun s =>
  match s with
  | [] => []
  | c :: rest => if p c then [rest] else []

/-- Match the literal character `c`. -/
def mlit (c : Char) : Matcher := mchar (fun d => d == c)

/-- Sequential composition of two patterns. -/
def mseq (a b : Matcher) : Matcher := fun s => (a s).flatMap b

/-- `a?` : zero or one occurrence. -/
def mopt (a : Matcher) : Matcher := fun s => s :: a s

/-- Fuel-bounded Kleene star. -/
def mstarFuel (a : Matcher) : Nat → Matcher
  | 0 => fun s => [s]
  | n + 1 => fun s => s :: (a s).flatMap (mstarFuel a n)

/-- `a*` : the fuel `s.length` is enough for character-class bodies. -/
def mstar (a : Matcher) : Matcher := fun s => mstarFuel a s.length s

/-- `a+` : one or more occurrences. -/
def mplus (a : Matcher) : Matcher := mseq a (mstar a)

/-- Python's `$` anchor (no MULTILINE): end of input, or just before a final
newline. -/
def mEndDollar : Matcher := fun s =>
  match s with
  | [] => [[]]
  | [c] => if c == '\n' then [['\n']] else []
  | _ => []

/-- The regex class `[A-Z]`. -/
def upperAZ (c : Char) : Bool := 'A' ≤ c && c ≤ 'Z'

/-- The regex class `[a-z]`. -/
def lowerAZ (c : Char) : Bool := 'a' ≤ c && c ≤ 'z'

/-- The regex class `[0-9]`, model of `\d` on the program's inputs. -/
def digit09 (c : Char) : Bool := '0' ≤ c && c ≤ '9'

/-- The regex class `[a-zA-Z]`. -/
def alphaAZ (c : Char) : Bool := upperAZ c || lowerAZ c

/-- Whitespace as a matcher (`\s`). -/
def wsM : Matcher := mchar isPySpace

/-- Regex `.` (no DOTALL): any character except newline. -/
def dotM : Matcher := mchar (fun c => !(c == '\n'))

/-- `src/main.py:215` — `^\s*(?:[A-Z][A-Z\s]+:?\s*)$` (all-caps line,
optional trailing colon). -/
def pat1 : Matcher :=
  mseq (mstar wsM)
    (mseq (mchar upperAZ)
      (mseq (mplus (mchar (fun c => upperAZ c || isPySpace c)))
        (mseq (mopt (mlit ':'))
          (mseq (mstar wsM) mEndDollar))))

/-- `src/main.py:216` — `^\s*\d+\.\s+[A-Z][a-zA-Z\s]+` (decimal-numbered
heading). -/
def pat2 : Matcher :=
  mseq (mstar wsM)
    (mseq (mplus (mchar digit09))
      (mseq (mlit '.')
        (mseq (mplus wsM)
          (mseq (mchar upperAZ)
            (mplus (mchar (fun c => alphaAZ c || isPySpace c)))))))

/-- `src/main.py:217` — `^\s*ยง\s*\d+\.\s.*` (section-symbol heading; the
source literal holds the two characters U+0E22 U+0E07, a mojibake of `§`). -/
def pat3 : Matcher :=
  mseq (mstar wsM)
    (mseq (mlit 'ย')
      (mseq (mlit 'ง')
        (mseq (mstar wsM)
          (mseq (mplus (mchar digit09))
            (mseq (mlit '.')
              (mseq wsM (mstar dotM)))))))

/-- `src/main.py:218` — `^\s*[IVX]+\.\s.*` (Roman-numeral heading). -/
def pat4 : Matcher :=
  mseq (mstar wsM)
    (mseq (mplus (mchar (fun c => c == 'I' || c == 'V' || c == 'X')))
      (mseq (mlit '.')
        (mseq wsM (mstar dotM))))

/-- `pattern.match(line)` : the pattern matches a prefix of `s`. -/
def reMatch (m : Matcher) (s : String) : Bool := !(m s.data).isEmpty

/-- `any(pattern.match(line) for pattern in header_patterns)`
(`src/main.py:226`). -/
def isHeading (line : String) : Bool :=
  reMatch pat1 line || reMatch pat2 line || reMatch pat3 line || reMatch pat4 line

/-! ### Data model (§3 of the behaviour: the `results` dictionary plus the
extractor's own attributes, flattened into one state record) -/

/-- One entry of `results["content"]` (`src/main.py:81-85` and analogues). -/
structure PageTextRecord where
  page : Nat
  content : String
  type : String
deriving DecidableEq, Repr

/-- An image region as reported by pdfplumber for one page
(`page.images`); the numeric payload is carried opaquely — no stage of the
program inspects it. -/
structure FigureInfo where
  bbox : List Int
  width : Int
  height : Int
deriving DecidableEq, Repr

/-- One entry of `results["figures"]` (`src/main.py:113-118`). -/
structure FigureRecord where
  page : Nat
  bbox : List Int
  width : Int
  height : Int
deriving DecidableEq, Repr

/-- A pandas DataFrame, as far as the program observes it: column names and
rows of cells. -/
structure DF (α : Type) where
  cols : List String
  rows : List (List α)
deriving DecidableEq, Repr

/-- pandas `DataFrame.empty`: true when either axis has length zero. -/
def dfEmpty (d : DF α) : Bool := d.rows.isEmpty || d.cols.isEmpty

/-- `to_dict(orient='records')`: each row becomes a column-to-cell mapping. -/
def toRecords (cols : List String) (rows : List (List α)) :
    List (List (String × α)) :=
  rows.map (fun r => cols.zip r)

/-- One table detected by camelot: its source page and its DataFrame (cells
are strings). -/
structure CamelotTable where
  page : Nat
  df : DF String
deriving DecidableEq, Repr

/-- `df.replace(r'^\s*$', None, regex=True)` applied to one cell: a cell
consisting only of whitespace (including the empty cell) becomes the null
marker, every other cell is kept. -/
def camelotNormCell (s : String) : Option String :=
  if s.data.all isPySpace then none else some s

/-- `table.fillna('')` applied to one cell: a missing value (NaN, modelled
as `none`) becomes the empty string. -/
def tabulaNormCell : Option String → Option String
  | none => some ""
  | some s => some s

/-- One entry of `results["tables"]` (`src/main.py:190-194, 203-207`).
Cell values are `Option String`: `none` is the null marker produced by the
camelot normalization. -/
structure TableRecord where
  method : String
  page : Nat
  data : List (List (String × Option String))
deriving DecidableEq, Repr

/-- `results["metadata"]` after `_extract_metadata` (`src/main.py:64-71`). -/
structure Metadata where
  title : String
  author : String
  creator : String
  creation_date : String
  modification_date : String
  page_count : Nat
deriving DecidableEq, Repr

/-- The raw `doc.metadata` dictionary: each field may be absent
(`metadata.get(key, "")` supplies the default), plus `doc.page_count`. -/
structure MetaDict where
  title : Option String
  author : Option String
  creator : Option String
  creation_date : Option String
  mod_date : Option String
  page_count : Nat
deriving DecidableEq, Repr

/-- Behaviour of every external library call for one document, fixed for the
whole run.  For each text strategy, `...Pages` is the per-page output the
library delivers for the pages the strategy gets through, and `...Err` is
true when the library raises an exception inside the strategy's `try` block
(in which case the strategy's local `text_content` is discarded).
`camelot`/`tabula` are `none` when the respective `read_pdf` call raises. -/
structure Env where
  meta : MetaDict
  pymupdfPages : List String
  pymupdfErr : Bool
  plumberPages : List (String × List FigureInfo)
  plumberErr : Bool
  pypdfPages : List String
  pypdfErr : Bool
  ocrPages : List String
  ocrErr : Bool
  camelot : Option (List CamelotTable)
  tabula : Option (List (DF (Option String)))
deriving DecidableEq, Repr

/-- The whole observable state of an `AdvancedPDFExtractor` instance: the six
entries of `self.results` plus `self.extraction_methods` and
`self.is_scanned`. -/
structure XState where
  metadata : Metadata
  headers : List (String × List String)
  content : List PageTextRecord
  list_items : List String
  tables : List TableRecord
  figures : List FigureRecord
  extraction_methods : List String
  is_scanned : Bool
deriving DecidableEq, Repr

/-- `__init__` (`src/main.py:24-36`): everything empty, `is_scanned` false. -/
def initState : XState where
  metadata := ⟨"", "", "", "", "", 0⟩
  headers := []
  content := []
  list_items := []
  tables := []
  figures := []
  extraction_methods := []
  is_scanned := false

/-! ### Stage 1: metadata -/

/-- `_extract_metadata` (`src/main.py:60-71`). -/
def extractMetadata (env : Env) (st : XState) : XState :=
  { st with metadata :=
      { title := env.meta.title.getD ""
        author := env.meta.author.getD ""
        creator := env.meta.creator.getD ""
        creation_date := env.meta.creation_date.getD ""
        modification_date := env.meta.mod_date.getD ""
        page_count := env.meta.page_count } }

/-! ### Stage 2: text-extraction candidates -/

/-- The `text_content` list a text strategy builds from its per-page library
output: starting at 0-based index `i`, keep a record (1-based page, raw
text, tag) for each page whose stripped text is non-empty
(`src/main.py:78-85` and analogues). -/
def buildTextAux (tag : String) : Nat → List String → List PageTextRecord
  | _, [] => []
  | i, t :: rest =>
    if (pyStrip t).isEmpty then buildTextAux tag (i + 1) rest
    else ⟨i + 1, t, tag⟩ :: buildTextAux tag (i + 1) rest

/-- The figure records pdfplumber's page loop appends, starting at 0-based
page index `i` (`src/main.py:112-118`). -/
def figuresAux : Nat → List (String × List FigureInfo) → List FigureRecord
  | _, [] => []
  | i, (_, figs) :: rest =>
    figs.map (fun f => ⟨i + 1, f.bbox, f.width, f.height⟩) ++ figuresAux (i + 1) rest

/-- The camelot half of `_extract_tables` (`src/main.py:186-194`): skip
empty DataFrames, normalize whitespace-only cells to the null marker, record
the table's true source page. -/
def camelotRecords (tabs : List CamelotTable) : List TableRecord :=
  tabs.filterMap (fun t =>
    if dfEmpty t.df then none
    else some ⟨"Camelot", t.page,
      toRecords t.df.cols (t.df.rows.map (List.map camelotNormCell))⟩)

/-- The tabula half of `_extract_tables` (`src/main.py:200-207`): `i`
enumerates all detected tables (empty ones included), non-empty ones are
recorded with `page := i + 1` and missing cells filled with `""`. -/
def tabulaRecordsAux : Nat → List (DF (Option String)) → List TableRecord
  | _, [] => []
  | i, df :: rest =>
    if dfEmpty df then tabulaRecordsAux (i + 1) rest
    else ⟨"Tabula", i + 1,
      toRecords df.cols (df.rows.map (List.map tabulaNormCell))⟩
      :: tabulaRecordsAux (i + 1) rest

/-- `_extract_tables` (`src/main.py:182-209`): both detectors run inside
their own `try` blocks; a raising detector contributes nothing and does not
stop the other. -/
def extractTables (env : Env) (st : XState) : XState :=
  let st1 :=
    match env.camelot with
    | none => st
    | some tabs => { st with tables := st.tables ++ camelotRecords tabs }
  match env.tabula with
  | none => st1
  | some dfs => { st1 with tables := st1.tables ++ tabulaRecordsAux 0 dfs }

/-- `_extract_with_pymupdf` (`src/main.py:73-95`): on an exception the local
`text_content` is discarded and `False` is returned; on non-empty output the
records are appended to `content`, the method name is logged, tables are
extracted, and `True` is returned. -/
def extractWithPymupdf (env : Env) (st : XState) : XState × Bool :=
  if env.pymupdfErr then (st, false)
  else
    let tc := buildTextAux "text" 0 env.pymupdfPages
    if tc.isEmpty then (st, false)
    else
      (extractTables env
        { st with content := st.content ++ tc,
                  extraction_methods := st.extraction_methods ++ ["PyMuPDF"] },
       true)

/-- `_extract_with_pdfplumber` (`src/main.py:97-128`): the page loop appends
figure records into `results["figures"]` as it goes, before the aggregate
text-emptiness check, so those records persist even when the candidate
raises afterwards or yields no text. -/
def extractWithPdfplumber (env : Env) (st : XState) : XState × Bool :=
  let stF := { st with figures := st.figures ++ figuresAux 0 env.plumberPages }
  if env.plumberErr then (stF, false)
  else
    let tc := buildTextAux "text" 0 (env.plumberPages.map Prod.fst)
    if tc.isEmpty then (stF, false)
    else
      (extractTables env
        { stF with content := stF.content ++ tc,
                   extraction_methods := stF.extraction_methods ++ ["PDFPlumber"] },
       true)

/-- `_extract_with_pypdf` (`src/main.py:130-155`): both `except` arms
(encrypted and generic) return `False` with no state change. -/
def extractWithPypdf (env : Env) (st : XState) : XState × Bool :=
  if env.pypdfErr then (st, false)
  else
    let tc := buildTextAux "text" 0 env.pypdfPages
    if tc.isEmpty then (st, false)
    else
      (extractTables env
        { st with content := st.content ++ tc,
                  extraction_methods := st.extraction_methods ++ ["PyPDF"] },
       true)

/-- `_ocr_fallback` (`src/main.py:157-180`): records are tagged
`"ocr_text"`, success sets `is_scanned`; note the source does not call
`_extract_tables` on this path. -/
def ocrFallback (env : Env) (st : XState) : XState × Bool :=
  if env.ocrErr then (st, false)
  else
    let tc := buildTextAux "ocr_text" 0 env.ocrPages
    if tc.isEmpty then (st, false)
    else
      ({ st with content := st.content ++ tc,
                 extraction_methods := st.extraction_methods ++ ["Tesseract OCR"],
                 is_scanned := true },
       true)

/-! ### The selector loop (`extract`, `src/main.py:42-58`):
`for method in methods: if method(): break` -/

/-- Tail of the selector loop from the OCR candidate on. -/
def runFrom4 (env : Env) (st : XState) : XState := (ocrFallback env st).1

/-- Tail of the selector loop from the pypdf candidate on. -/
def runFrom3 (env : Env) (st : XState) : XState :=
  let r := extractWithPypdf env st
  if r.2 then r.1 else runFrom4 env r.1

/-- Tail of the selector loop from the pdfplumber candidate on. -/
def runFrom2 (env : Env) (st : XState) : XState :=
  let r := extractWithPdfplumber env st
  if r.2 then r.1 else runFrom3 env r.1

/-- The whole selector loop, starting with the pymupdf candidate. -/
def runFrom1 (env : Env) (st : XState) : XState :=
  let r := extractWithPymupdf env st
  if r.2 then r.1 else runFrom2 env r.1

/-- `extract` (`src/main.py:42-58`): metadata first, then the candidates in
priority order, stopping at the first success. -/
def extract (env : Env) : XState :=
  runFrom1 env (extractMetadata env initState)

/-! ### Selection, spec-side -/

/-- The four text-extraction strategies, in the priority order of
`src/main.py:47-52`. -/
inductive Method where
  | pymupdf
  | pdfplumber
  | pypdf
  | ocr
deriving DecidableEq, Repr

/-- The per-page library texts a strategy sees. -/
def methodPages (env : Env) : Method → List String
  | .pymupdf => env.pymupdfPages
  | .pdfplumber => env.plumberPages.map Prod.fst
  | .pypdf => env.pypdfPages
  | .ocr => env.ocrPages

/-- Whether the strategy's library call raises. -/
def methodErr (env : Env) : Method → Bool
  | .pymupdf => env.pymupdfErr
  | .pdfplumber => env.plumberErr
  | .pypdf => env.pypdfErr
  | .ocr => env.ocrErr

/-- The `type` tag each strategy stamps on its records. -/
def tagOf : Method → String
  | .ocr => "ocr_text"
  | _ => "text"

/-- The records a strategy delivers when accepted. -/
def methodRecords (env : Env) (m : Method) : List PageTextRecord :=
  buildTextAux (tagOf m) 0 (methodPages env m)

/-- A candidate succeeds iff its library call does not raise and at least
one page strips to non-blank text. -/
def strategyOk (env : Env) (m : Method) : Bool :=
  !methodErr env m && (methodPages env m).any nonblank

/-- The strategy the selector settles on: the first succeeding candidate. -/
def selectedMethod (env : Env) : Option Method :=
  if strategyOk env .pymupdf then some .pymupdf
  else if strategyOk env .pdfplumber then some .pdfplumber
  else if strategyOk env .pypdf then some .pypdf
  else if strategyOk env .ocr then some .ocr
  else none

/-! ### Stage 4: the Content Structurer (`_process_content`,
`src/main.py:211-233`).  `results["headers"]` is a Python dict, modelled as
an insertion-ordered association list. -/

/-- First value bound to `k`, if any (Python `d[k]` / `k in d`). -/
def dictLookup (h : List (String × α)) (k : String) : Option α :=
  match h with
  | [] => none
  | (k0, v) :: rest => if k0 = k then some v else dictLookup rest k

/-- Python `d[k] = v`: overwrite in place when the key exists, append
otherwise. -/
def dictSet (h : List (String × α)) (k : String) (v : α) : List (String × α) :=
  match h with
  | [] => [(k, v)]
  | (k0, v0) :: rest =>
    if k0 = k then (k, v) :: rest else (k0, v0) :: dictSet rest k v

/-- The default bucket `"Main Content"` (`src/main.py:221`). -/
def sentinel : String := "Main Content"

/-- The body of the inner loop of `_process_content`
(`src/main.py:224-233`): strip the line; a heading line becomes the current
header with a fresh empty body; otherwise append to the current header's
body when its key exists, or assign the line as the sentinel's body when it
does not. -/
def processLine (cur : String) (h : List (String × List String))
    (raw : String) : String × List (String × List String) :=
  let line := pyStrip raw
  if isHeading line then
    (line, dictSet h line [])
  else if (dictLookup h cur).isSome then
    (cur, dictSet h cur ((dictLookup h cur).getD [] ++ [line]))
  else
    (cur, dictSet h sentinel [line])

/-- The inner loop over the lines of one content item. -/
def runLines : List String → String → List (String × List String) →
    String × List (String × List String)
  | [], cur, h => (cur, h)
  | l :: ls, cur, h => runLines ls (processLine cur h l).1 (processLine cur h l).2

/-- The outer loop over `results["content"]`, splitting each item's text on
newlines (`src/main.py:222-223`). -/
def runItems : List PageTextRecord → String → List (String × List String) →
    String × List (String × List String)
  | [], cur, h => (cur, h)
  | it :: its, cur, h =>
    runItems its (runLines (it.content.splitOn "\n") cur h).1
      (runLines (it.content.splitOn "\n") cur h).2

/-- `_process_content` (`src/main.py:211-233`): rebuilds
`results["headers"]` from `results["content"]`, starting from the sentinel
header. -/
def processContent (st : XState) : XState :=
  { st with headers := (runItems st.content sentinel st.headers).2 }

/-- Instrumentation for the fallback branch: the stripped lines that are
processed as non-headings at a moment when the current header's key is not
present in the mapping (the lines taking the
`headers["Main Content"] = [line]` branch, `src/main.py:233`). -/
def fallbackLines : List String → String → List (String × List String) →
    List String
  | [], _, _ => []
  | l :: ls, cur, h =>
    let line := pyStrip l
    let nxt := processLine cur h l
    if !isHeading line && (dictLookup h cur).isNone then
      line :: fallbackLines ls nxt.1 nxt.2
    else
      fallbackLines ls nxt.1 nxt.2

/-- All lines of a content sequence, in processing order. -/
def allLines (content : List PageTextRecord) : List String :=
  content.flatMap (fun it => it.content.splitOn "\n")

/-! ### Helper lemmas -/

/-- Combined contribution of both table detectors for one run. -/
def tablesRecordsOf (env : Env) : List TableRecord :=
  (match env.camelot with
   | none => []
   | some tabs => camelotRecords tabs) ++
  (match env.tabula with
   | none => []
   | some dfs => tabulaRecordsAux 0 dfs)

theorem extractTables_eq (env : Env) (st : XState) :
    extractTables env st = { st with tables := st.tables ++ tablesRecordsOf env } := by
  cases hc : env.camelot <;> cases ht : env.tabula <;>
    simp [extractTables, tablesRecordsOf, hc, ht]

theorem buildTextAux_isEmpty (tag : String) (pages : List String) :
    ∀ i, (buildTextAux tag i pages).isEmpty = !(pages.any nonblank) := by
  induction pages with
  | nil => intro i; simp [buildTextAux]
  | cons t rest ih =>
    intro i
    by_cases h : (pyStrip t).isEmpty <;>
      simp [buildTextAux, h, nonblank, ih]

theorem buildTextAux_eq_enumFrom (tag : String) (pages : List String) :
    ∀ i, buildTextAux tag i pages =
      (List.enumFrom i pages).filterMap (fun pr =>
        if (pyStrip pr.2).isEmpty then none
        else some ⟨pr.1 + 1, pr.2, tag⟩) := by
  induction pages with
  | nil => intro i; simp [buildTextAux]
  | cons t rest ih =>
    intro i
    by_cases h : (pyStrip t).isEmpty <;>
      simp [buildTextAux, h, ih, List.enumFrom]

theorem buildTextAux_tags (tag : String) (pages : List String) :
    ∀ i, (buildTextAux tag i pages).all (fun r => r.type == tag) = true := by
  induction pages with
  | nil => intro i; simp [buildTextAux]
  | cons t rest ih =>
    intro i
    by_cases h : (pyStrip t).isEmpty <;>
      simp [buildTextAux, h, ih]

theorem extractWithPymupdf_eq (env : Env) (st : XState) :
    extractWithPymupdf env st =
      if strategyOk env .pymupdf then
        ({ st with content := st.content ++ methodRecords env .pymupdf,
                   extraction_methods := st.extraction_methods ++ ["PyMuPDF"],
                   tables := st.tables ++ tablesRecordsOf env }, true)
      else (st, false) := by
  cases he : env.pymupdfErr with
  | true => simp [extractWithPymupdf, strategyOk, methodErr, he]
  | false =>
    have hb := buildTextAux_isEmpty "text" env.pymupdfPages 0
    cases h : env.pymupdfPages.any nonblank <;> rw [h] at hb <;>
      simp [extractWithPymupdf, strategyOk, methodErr, methodPages, methodRecords,
        tagOf, he, h, hb, extractTables_eq]

theorem extractWithPdfplumber_eq (env : Env) (st : XState) :
    extractWithPdfplumber env st =
      if strategyOk env .pdfplumber then
        ({ st with figures := st.figures ++ figuresAux 0 env.plumberPages,
                   content := st.content ++ methodRecords env .pdfplumber,
                   extraction_methods := st.extraction_methods ++ ["PDFPlumber"],
                   tables := st.tables ++ tablesRecordsOf env }, true)
      else ({ st with figures := st.figures ++ figuresAux 0 env.plumberPages }, false) := by
  cases he : env.plumberErr with
  | true => simp [extractWithPdfplumber, strategyOk, methodErr, he]
  | false =>
    have hb := buildTextAux_isEmpty "text" (env.plumberPages.map Prod.fst) 0
    cases h : (env.plumberPages.map Prod.fst).any nonblank <;> rw [h] at hb <;>
      simp [extractWithPdfplumber, strategyOk, methodErr, methodPages, methodRecords,
        tagOf, he, h, hb, extractTables_eq]

theorem extractWithPypdf_eq (env : Env) (st : XState) :
    extractWithPypdf env st =
      if strategyOk env .pypdf then
        ({ st with content := st.content ++ methodRecords env .pypdf,
                   extraction_methods := st.extraction_methods ++ ["PyPDF"],
                   tables := st.tables ++ tablesRecordsOf env }, true)
      else (st, false) := by
  cases he : env.pypdfErr with
  | true => simp [extractWithPypdf, strategyOk, methodErr, he]
  | false =>
    have hb := buildTextAux_isEmpty "text" env.pypdfPages 0
    cases h : env.pypdfPages.any nonblank <;> rw [h] at hb <;>
      simp [extractWithPypdf, strategyOk, methodErr, methodPages, methodRecords,
        tagOf, he, h, hb, extractTables_eq]

theorem ocrFallback_eq (env : Env) (st : XState) :
    ocrFallback env st =
      if strategyOk env .ocr then
        ({ st with content := st.content ++ methodRecords env .ocr,
                   extraction_methods := st.extraction_methods ++ ["Tesseract OCR"],
                   is_scanned := true }, true)
      else (st, false) := by
  cases he : env.ocrErr with
  | true => simp [ocrFallback, strategyOk, methodErr, he]
  | false =>
    have hb := buildTextAux_isEmpty "ocr_text" env.ocrPages 0
    cases h : env.ocrPages.any nonblank <;> rw [h] at hb <;>
      simp [ocrFallback, strategyOk, methodErr, methodPages, methodRecords,
        tagOf, he, h, hb]

theorem any_nonblank_iff (pages : List String) :
    pages.any nonblank = true ↔ ∃ p ∈ pages, (pyStrip p).isEmpty = false := by
  simp [List.any_eq_true, nonblank]

theorem tabulaRecordsAux_enumFrom (dfs : List (DF (Option String))) :
    ∀ i, tabulaRecordsAux i dfs =
      (List.enumFrom i dfs).filterMap (fun pr =>
        if dfEmpty pr.2 then none
        else some ⟨"Tabula", pr.1 + 1,
          toRecords pr.2.cols (pr.2.rows.map (List.map tabulaNormCell))⟩) := by
  induction dfs with
  | nil => intro i; simp [tabulaRecordsAux]
  | cons df rest ih =>
    intro i
    by_cases h : dfEmpty df <;>
      simp [tabulaRecordsAux, h, ih, List.enumFrom]

/-- The metadata fields as filled in by `_extract_metadata`. -/
def mdOf (env : Env) : Metadata :=
  ⟨env.meta.title.getD "", env.meta.author.getD "", env.meta.creator.getD "",
   env.meta.creation_date.getD "", env.meta.mod_date.getD "", env.meta.page_count⟩

/-- Closed form of the whole `extract` run, by selected strategy. -/
theorem extract_eq (env : Env) :
    extract env =
      match selectedMethod env with
      | some .pymupdf =>
        ⟨mdOf env, [], methodRecords env .pymupdf, [], tablesRecordsOf env, [],
         ["PyMuPDF"], false⟩
      | some .pdfplumber =>
        ⟨mdOf env, [], methodRecords env .pdfplumber, [], tablesRecordsOf env,
         figuresAux 0 env.plumberPages, ["PDFPlumber"], false⟩
      | some .pypdf =>
        ⟨mdOf env, [], methodRecords env .pypdf, [], tablesRecordsOf env,
         figuresAux 0 env.plumberPages, ["PyPDF"], false⟩
      | some .ocr =>
        ⟨mdOf env, [], methodRecords env .ocr, [], [],
         figuresAux 0 env.plumberPages, ["Tesseract OCR"], true⟩
      | none =>
        ⟨mdOf env, [], [], [], [], figuresAux 0 env.plumberPages, [], false⟩ := by
  cases h1 : strategyOk env .pymupdf <;> cases h2 : strategyOk env .pdfplumber <;>
  cases h3 : strategyOk env .pypdf <;> cases h4 : strategyOk env .ocr <;>
    simp [extract, runFrom1, runFrom2, runFrom3, runFrom4, selectedMethod,
      extractWithPymupdf_eq, extractWithPdfplumber_eq, extractWithPypdf_eq,
      ocrFallback_eq, h1, h2, h3, h4, extractMetadata, initState, mdOf]

/-! ### Dictionary lemmas -/

theorem dictLookup_dictSet_self (h : List (String × α)) (k : String) (v : α) :
    dictLookup (dictSet h k v) k = some v := by
  induction h with
  | nil => simp [dictLookup, dictSet]
  | cons p rest ih =>
    by_cases hk : p.1 = k <;> simp [dictLookup, dictSet, hk, ih]

theorem dictLookup_dictSet_ne (h : List (String × α)) (k k' : String) (v : α)
    (hne : k' ≠ k) : dictLookup (dictSet h k v) k' = dictLookup h k' := by
  have hne' : ¬k = k' := fun e => hne e.symm
  induction h with
  | nil => simp [dictLookup, dictSet, hne']
  | cons p rest ih =>
    by_cases hk : p.1 = k
    · simp [dictLookup, dictSet, hk, hne, hne']
    · by_cases hk' : p.1 = k' <;> simp [dictLookup, dictSet, hk, hk', ih, hne, hne']

theorem runLines_cons (l : String) (ls : List String) (cur : String)
    (h : List (String × List String)) :
    runLines (l :: ls) cur h =
      runLines ls (processLine cur h l).1 (processLine cur h l).2 := rfl

theorem fallbackLines_cons (l : String) (ls : List String) (cur : String)
    (h : List (String × List String)) :
    fallbackLines (l :: ls) cur h =
      if !isHeading (pyStrip l) && (dictLookup h cur).isNone then
        pyStrip l :: fallbackLines ls (processLine cur h l).1 (processLine cur h l).2
      else
        fallbackLines ls (processLine cur h l).1 (processLine cur h l).2 := rfl

theorem isHeading_sentinel : isHeading sentinel = false := by decide

/-- Main invariant of the Content Structurer: starting from a state where
the current header is the sentinel or present in the mapping, and where the
lines collected so far (`pre`) form, in order, part of the sentinel's body
list (or the sentinel is absent and nothing was collected), processing any
line sequence extends this to the lines taking the fallback branch. -/
theorem runLines_fallback (lines : List String) :
    ∀ (cur : String) (h : List (String × List String)) (pre : List String),
      (cur = sentinel ∨ (dictLookup h cur).isSome = true) →
      (∀ l0, dictLookup h sentinel = some l0 → pre.Sublist l0) →
      (dictLookup h sentinel = none → pre = []) →
      (∀ l1, dictLookup (runLines lines cur h).2 sentinel = some l1 →
        (pre ++ fallbackLines lines cur h).Sublist l1) ∧
      (dictLookup (runLines lines cur h).2 sentinel = none →
        pre ++ fallbackLines lines cur h = []) := by
  induction lines with
  | nil =>
    intro cur h pre hJ hKs hKn
    refine ⟨fun l1 hl1 => ?_, fun hn => ?_⟩
    · simpa [runLines, fallbackLines] using hKs l1 (by simpa [runLines] using hl1)
    · simpa [runLines, fallbackLines] using hKn (by simpa [runLines] using hn)
  | cons l ls ih =>
    intro cur h pre hJ hKs hKn
    by_cases hH : isHeading (pyStrip l) = true
    · -- heading branch: the line becomes the current header with empty body
      have hpl : processLine cur h l = (pyStrip l, dictSet h (pyStrip l) []) := by
        simp [processLine, hH]
      have hne : sentinel ≠ pyStrip l := by
        intro e
        rw [← e] at hH
        exact absurd hH (by simp [isHeading_sentinel])
      have hpres : dictLookup (dictSet h (pyStrip l) []) sentinel = dictLookup h sentinel :=
        dictLookup_dictSet_ne h (pyStrip l) sentinel [] hne
      have step := ih (pyStrip l) (dictSet h (pyStrip l) []) pre
        (Or.inr (by rw [dictLookup_dictSet_self]; rfl))
        (fun l0 hl0 => hKs l0 (by rwa [hpres] at hl0))
        (fun hn => hKn (by rwa [hpres] at hn))
      rw [runLines_cons, fallbackLines_cons]
      simpa [hpl, hH] using step
    · -- non-heading branch
      replace hH : isHeading (pyStrip l) = false := by
        cases e : isHeading (pyStrip l)
        · rfl
        · exact absurd e hH
      by_cases hS : (dictLookup h cur).isSome = true
      · -- the current header's key is present: append to its body
        obtain ⟨v, hv⟩ := Option.isSome_iff_exists.mp hS
        have hpl : processLine cur h l = (cur, dictSet h cur (v ++ [pyStrip l])) := by
          simp [processLine, hH, hv]
        by_cases hcs : cur = sentinel
        · subst hcs
          have step := ih sentinel (dictSet h sentinel (v ++ [pyStrip l])) pre
            (Or.inr (by rw [dictLookup_dictSet_self]; rfl))
            (fun l0 hl0 => by
              rw [dictLookup_dictSet_self] at hl0
              cases hl0
              exact (hKs v hv).trans (List.sublist_append_left v [pyStrip l]))
            (fun hn => by rw [dictLookup_dictSet_self] at hn; cases hn)
          rw [runLines_cons, fallbackLines_cons]
          simpa [hpl, hH, hv] using step
        · have hpres : dictLookup (dictSet h cur (v ++ [pyStrip l])) sentinel
              = dictLookup h sentinel :=
            dictLookup_dictSet_ne h cur sentinel _ (fun e => hcs e.symm)
          have step := ih cur (dictSet h cur (v ++ [pyStrip l])) pre
            (Or.inr (by rw [dictLookup_dictSet_self]; rfl))
            (fun l0 hl0 => hKs l0 (by rwa [hpres] at hl0))
            (fun hn => hKn (by rwa [hpres] at hn))
          rw [runLines_cons, fallbackLines_cons]
          simpa [hpl, hH, hv] using step
      · -- fallback branch: the current header's key is absent
        have hnone : dictLookup h cur = none := by
          cases e : dictLookup h cur
          · rfl
          · rw [e] at hS; exact absurd rfl hS
        have hcs : cur = sentinel := by
          rcases hJ with hc | hs
          · exact hc
          · rw [hnone] at hs; cases hs
        subst hcs
        have hpre : pre = [] := hKn hnone
        subst hpre
        have hpl : processLine sentinel h l = (sentinel, dictSet h sentinel [pyStrip l]) := by
          simp [processLine, hH, hnone]
        have step := ih sentinel (dictSet h sentinel [pyStrip l]) [pyStrip l]
          (Or.inl rfl)
          (fun l0 hl0 => by
            rw [dictLookup_dictSet_self] at hl0
            cases hl0
            exact List.Sublist.refl _)
          (fun hn => by rw [dictLookup_dictSet_self] at hn; cases hn)
        rw [runLines_cons, fallbackLines_cons]
        refine ⟨fun l1 hl1 => ?_, fun hn => ?_⟩
        · simp only [hpl, hH, hnone] at hl1 ⊢
          simpa using step.1 l1 (by simpa using hl1)
        · simp only [hpl, hH, hnone] at hn ⊢
          simpa using step.2 (by simpa using hn)

theorem runLines_append (a b : List String) :
    ∀ cur h, runLines (a ++ b) cur h =
      runLines b (runLines a cur h).1 (runLines a cur h).2 := by
  induction a with
  | nil => intro cur h; simp [runLines]
  | cons l ls ih => intro cur h; simp [runLines, ih]

theorem runItems_eq_runLines (items : List PageTextRecord) :
    ∀ cur h, runItems items cur h = runLines (allLines items) cur h := by
  induction items with
  | nil => intro cur h; simp [runItems, allLines, runLines]
  | cons it its ih =>
    intro cur h
    simp [runItems, allLines, runLines_append, ih]

/-! ### Concrete test environments -/

/-- A metadata dictionary with no descriptive fields. -/
def mdEmpty : MetaDict := ⟨none, none, none, none, none, 3⟩

/-- A born-digital document: pymupdf delivers text, and both table
detectors find one table each. -/
def envA : Env where
  meta := mdEmpty
  pymupdfPages := ["Hello world", "  ", "RESULTS\nvalue one"]
  pymupdfErr := false
  plumberPages := []
  plumberErr := false
  pypdfPages := []
  pypdfErr := false
  ocrPages := []
  ocrErr := false
  camelot := some [⟨2, ⟨["A", "B"], [["x", " "]]⟩⟩]
  tabula := some [⟨["C"], [[some "y"], [none]]⟩]

/-- A document where pymupdf yields only blank pages, pdfplumber sees an
image region but no text, and pypdf finally delivers text. -/
def envF : Env where
  meta := mdEmpty
  pymupdfPages := ["", "   "]
  pymupdfErr := false
  plumberPages := [("", [⟨[0, 0, 10, 10], 10, 10⟩])]
  plumberErr := false
  pypdfPages := ["Digital text"]
  pypdfErr := false
  ocrPages := []
  ocrErr := false
  camelot := none
  tabula := none

/-! ### Claim theorems -/

/-- C1: in every run, `content` is exactly the output of the single
selected strategy (the first succeeding candidate) — records from two
strategies are never mixed — and every record's `type` tag is the tag of
that strategy: `"text"` for the three digital strategies, `"ocr_text"`
only for the OCR fallback; when no strategy succeeds, `content` is empty. -/
theorem c1_content_single_strategy (env : Env) :
    (extract env).content =
      (match selectedMethod env with
       | none => []
       | some m => methodRecords env m) ∧
    (extract env).content.all
      (fun r => r.type == (selectedMethod env).elim "" tagOf) = true := by
  rw [extract_eq]
  cases hs : selectedMethod env with
  | none => simp
  | some m =>
    cases m <;> simp [methodRecords, buildTextAux_tags, tagOf]

/-- C2: a candidate that does not raise is accepted exactly when at least
one of its pages strips to non-blank text, and the record list any strategy
builds contains one record per non-blank page, carrying the 1-based page
number and the raw text, in page order. -/
theorem c2_acceptance_and_records (env : Env) (st : XState) :
    (env.pymupdfErr = false →
      (((extractWithPymupdf env st).2 = true) ↔
        ∃ p ∈ env.pymupdfPages, (pyStrip p).isEmpty = false)) ∧
    (env.plumberErr = false →
      (((extractWithPdfplumber env st).2 = true) ↔
        ∃ p ∈ env.plumberPages.map Prod.fst, (pyStrip p).isEmpty = false)) ∧
    (env.pypdfErr = false →
      (((extractWithPypdf env st).2 = true) ↔
        ∃ p ∈ env.pypdfPages, (pyStrip p).isEmpty = false)) ∧
    (env.ocrErr = false →
      (((ocrFallback env st).2 = true) ↔
        ∃ p ∈ env.ocrPages, (pyStrip p).isEmpty = false)) ∧
    (∀ tag pages, buildTextAux tag 0 pages = pages.enum.filterMap (fun pr =>
      if (pyStrip pr.2).isEmpty then none else some ⟨pr.1 + 1, pr.2, tag⟩)) := by
  refine ⟨?_, ?_, ?_, ?_, ?_⟩
  · intro he
    rw [extractWithPymupdf_eq, ← any_nonblank_iff]
    cases hc : strategyOk env .pymupdf <;>
      simp_all [strategyOk, methodErr, methodPages, he]
  · intro he
    rw [extractWithPdfplumber_eq, ← any_nonblank_iff]
    cases hc : strategyOk env .pdfplumber <;>
      simp_all [strategyOk, methodErr, methodPages, he]
    exact hc
  · intro he
    rw [extractWithPypdf_eq, ← any_nonblank_iff]
    cases hc : strategyOk env .pypdf <;>
      simp_all [strategyOk, methodErr, methodPages, he]
  · intro he
    rw [ocrFallback_eq, ← any_nonblank_iff]
    cases hc : strategyOk env .ocr <;>
      simp_all [strategyOk, methodErr, methodPages, he]
  · intro tag pages
    rw [buildTextAux_eq_enumFrom]
    rfl

theorem c2_witness :
    envA.pymupdfErr = false ∧
    (((extractWithPymupdf envA initState).2 = true) ↔
      ∃ p ∈ envA.pymupdfPages, (pyStrip p).isEmpty = false) :=
  ⟨rfl, (c2_acceptance_and_records envA initState).1 rfl⟩

/-- C3: `is_scanned` is true after a run exactly when the OCR fallback is
the strategy that succeeded; it stays false when a digital strategy
succeeds and when every strategy yields nothing. -/
theorem c3_is_scanned_iff_ocr (env : Env) :
    (extract env).is_scanned = true ↔ selectedMethod env = some Method.ocr := by
  rw [extract_eq]
  cases hs : selectedMethod env with
  | none => simp
  | some m => cases m <;> simp

/-- C4: every line processed by the Content Structurer as a non-heading at
a moment when the current header's key is absent from the mapping ends up
in the sentinel bucket: after processing, the sentinel's body list contains
all such lines in order. -/
theorem c4_fallback_lines_in_sentinel (content : List PageTextRecord) :
    (fallbackLines (allLines content) sentinel []).Sublist
      ((dictLookup (processContent { initState with content := content }).headers
        sentinel).getD []) := by
  have main := runLines_fallback (allLines content) sentinel [] []
    (Or.inl rfl)
    (fun l0 hl0 => by simp [dictLookup] at hl0)
    (fun _ => rfl)
  have hpc : (processContent { initState with content := content }).headers
      = (runLines (allLines content) sentinel []).2 := by
    simp [processContent, initState, runItems_eq_runLines]
  rw [hpc]
  cases hfin : dictLookup (runLines (allLines content) sentinel []).2 sentinel with
  | none =>
    have h0 := main.2 hfin
    simp only [List.nil_append] at h0
    simp [h0]
  | some l1 =>
    have h1 := main.1 l1 hfin
    simpa using h1

/-- C5: camelot tables with an empty DataFrame (zero rows included) are
skipped, whitespace-only cells become the null marker, and the recorded
page is the table's true source page; tabula tables that are empty are
skipped, missing cells become the empty string, and the recorded page is
the table's 1-based ordinal position among all of tabula's results; the
two normalization rules are not swapped. -/
theorem c5_table_normalization (env : Env) (st : XState)
    (tabs : List CamelotTable) (dfs : List (DF (Option String))) :
    ((extractTables { env with camelot := some tabs, tabula := some dfs } st).tables
      = st.tables ++ camelotRecords tabs ++ tabulaRecordsAux 0 dfs) ∧
    (∀ t, camelotRecords [t] =
      if dfEmpty t.df then []
      else [⟨"Camelot", t.page,
        toRecords t.df.cols (t.df.rows.map (List.map camelotNormCell))⟩]) ∧
    (∀ s, camelotNormCell s = if s.data.all isPySpace then none else some s) ∧
    (∀ c, tabulaNormCell c = some (c.getD "")) ∧
    (∀ i dfs2, tabulaRecordsAux i dfs2 =
      (List.enumFrom i dfs2).filterMap (fun pr =>
        if dfEmpty pr.2 then none
        else some ⟨"Tabula", pr.1 + 1,
          toRecords pr.2.cols (pr.2.rows.map (List.map tabulaNormCell))⟩)) := by
  refine ⟨?_, ?_, ?_, ?_, fun i dfs2 => tabulaRecordsAux_enumFrom dfs2 i⟩
  · simp [extractTables]
  · intro t
    by_cases h : dfEmpty t.df <;> simp [camelotRecords, h]
  · intro s
    rfl
  · intro c
    cases c <;> rfl

/-- C6 (counterexample): a candidate that yields no text can still change
the result aggregate — in `envF`, pdfplumber returns failure yet the state
differs afterwards, because the figure records it appended persist. -/
theorem c6_counterexample :
    ((extractWithPdfplumber envF (extractMetadata envF initState)).2 = false) ∧
    (decide ((extractWithPdfplumber envF (extractMetadata envF initState)).1
      = extractMetadata envF initState) = false) := by
  constructor <;> decide

/-- C6 (amended): a candidate that fails internally or yields no text
contributes nothing to the result aggregate — except that the pdfplumber
candidate still appends the figure records of the pages it iterated — the
failure never escapes the candidate, and the next candidate still runs. -/
theorem c6_failed_candidate_frame (env : Env) (st : XState) :
    ((extractWithPymupdf env st).2 = false → (extractWithPymupdf env st).1 = st) ∧
    ((extractWithPypdf env st).2 = false → (extractWithPypdf env st).1 = st) ∧
    ((ocrFallback env st).2 = false → (ocrFallback env st).1 = st) ∧
    ((extractWithPdfplumber env st).2 = false →
      (extractWithPdfplumber env st).1 =
        { st with figures := st.figures ++ figuresAux 0 env.plumberPages }) ∧
    ((extractWithPymupdf env st).2 = false →
      runFrom1 env st = runFrom2 env (extractWithPymupdf env st).1) ∧
    ((extractWithPdfplumber env st).2 = false →
      runFrom2 env st = runFrom3 env (extractWithPdfplumber env st).1) ∧
    ((extractWithPypdf env st).2 = false →
      runFrom3 env st = runFrom4 env (extractWithPypdf env st).1) := by
  refine ⟨?_, ?_, ?_, ?_, ?_, ?_, ?_⟩
  · rw [extractWithPymupdf_eq]
    cases hc : strategyOk env .pymupdf <;> simp [hc]
  · rw [extractWithPypdf_eq]
    cases hc : strategyOk env .pypdf <;> simp [hc]
  · rw [ocrFallback_eq]
    cases hc : strategyOk env .ocr <;> simp [hc]
  · rw [extractWithPdfplumber_eq]
    cases hc : strategyOk env .pdfplumber <;> simp [hc]
  · intro h
    simp [runFrom1, h]
  · intro h
    simp [runFrom2, h]
  · intro h
    simp [runFrom3, h]

theorem c6_failed_candidate_frame_witness :
    ((extractWithPdfplumber envF (extractMetadata envF initState)).2 = false) ∧
    ((extractWithPdfplumber envF (extractMetadata envF initState)).1 =
      { extractMetadata envF initState with
          figures := (extractMetadata envF initState).figures
            ++ figuresAux 0 envF.plumberPages }) :=
  ⟨by decide,
   (c6_failed_candidate_frame envF (extractMetadata envF initState)).2.2.2.1 (by decide)⟩

/-- C7: the heading classifier accepts "1. Introduction", rejects
"the cat sat", accepts "RESULTS" and "RESULTS:"; a line classified as a
heading becomes the current header with its body list initialized empty. -/
theorem c7_heading_classifier :
    isHeading "1. Introduction" = true ∧
    isHeading "the cat sat" = false ∧
    isHeading "RESULTS" = true ∧
    isHeading "RESULTS:" = true ∧
    (∀ cur h raw, isHeading (pyStrip raw) = true →
      processLine cur h raw = (pyStrip raw, dictSet h (pyStrip raw) [])) := by
  refine ⟨by decide, by decide, by decide, by decide, fun cur h raw hH => ?_⟩
  simp [processLine, hH]

theorem c7_witness :
    isHeading (pyStrip "RESULTS") = true ∧
    processLine "Main Content" [] "RESULTS" =
      (pyStrip "RESULTS", dictSet [] (pyStrip "RESULTS") []) :=
  ⟨by decide, c7_heading_classifier.2.2.2.2 "Main Content" [] "RESULTS" (by decide)⟩

/-- C8: `list_items` is empty at the end of every run — initialized empty
and never touched by any stage, the Content Structurer included. -/
theorem c8_list_items_empty (env : Env) :
    (extract env).list_items = [] ∧
    (processContent (extract env)).list_items = [] := by
  have h : (extract env).list_items = [] := by
    rw [extract_eq]
    rcases hs : selectedMethod env with _ | m
    · simp
    · cases m <;> simp
  exact ⟨h, by simp [processContent, h]⟩

/-- C9: `figures` is written only by the pdfplumber page loop: it is empty
whenever the first candidate (pymupdf) succeeds and otherwise holds exactly
the figure records of the pages pdfplumber iterated; no other stage touches
it; and in `envF` it is non-empty even though pdfplumber is not the
selected strategy. -/
theorem c9_figures_frame :
    (∀ env : Env, (extract env).figures =
      if strategyOk env .pymupdf then [] else figuresAux 0 env.plumberPages) ∧
    (∀ st : XState, (processContent st).figures = st.figures) ∧
    decide (selectedMethod envF = some Method.pdfplumber) = false ∧
    (extract envF).figures.isEmpty = false := by
  refine ⟨?_, fun st => by simp [processContent], by decide, by decide⟩
  intro env
  rw [extract_eq]
  cases h1 : strategyOk env .pymupdf <;> cases h2 : strategyOk env .pdfplumber <;>
  cases h3 : strategyOk env .pypdf <;> cases h4 : strategyOk env .ocr <;>
    simp [selectedMethod, h1, h2, h3, h4]

/-- C10: the pipeline is a deterministic function of its input: two runs on
the same document, with the external library calls behaving identically
(the same `Env`), produce identical metadata, the same strategy selection,
and identical table records. -/
theorem c10_deterministic (env1 env2 : Env) (h : env1 = env2) :
    (extract env1).metadata = (extract env2).metadata ∧
    selectedMethod env1 = selectedMethod env2 ∧
    (extract env1).tables = (extract env2).tables := by
  subst h
  exact ⟨rfl, rfl, rfl⟩

theorem c10_witness :
    (extract envA).metadata = (extract envA).metadata ∧
    selectedMethod envA = selectedMethod envA ∧
    (extract envA).tables = (extract envA).tables :=
  c10_deterministic envA envA rfl

end PDFExtractor
